import Mathlib

/-!
Verification development for `vapor.py` (Virtual Dreams Telegram bot).

The development shallowly embeds the request-processing pipeline of the
`vapor` function and its `/vapor` command handler.  External collaborators
(Telegram, YouTube search/download, pychorus, pydub, sox) are modelled as an
oracle environment `Env` supplying their answers; the on-disk state is an
explicit file-system value `FS`; the observable behaviour of a run (which
stages were invoked and what was delivered) is a `Trace`.
-/

deriving instance DecidableEq for Except

namespace Vapor

/-- Line 59: `MAX_DURATION = 420  # seconds (7 minutes)`. -/
def MAX_DURATION : Nat := 420

/-- Line 62: the tuple `youtube_urls` used for URL detection. -/
def youtube_urls : List String :=
  ["youtube.com", "https://www.youtube.com/", "http://www.youtube.com/",
   "http://youtu.be/", "https://youtu.be/", "youtu.be"]

/-- Line 119: `query.lower().startswith(youtube_urls)`.  Lower-casing is
modelled per character with `Char.toLower`; the prefixes themselves are ASCII
and already lower-case, so this matches Python `str.lower`/`startswith` on the
characters that can decide a match. -/
def isYoutubeUrl (q : String) : Bool :=
  youtube_urls.any (fun p => p.toList.isPrefixOf (q.toList.map Char.toLower))

/-- Metadata returned by `youtube_dl...extract_info`: the fields the program
reads (`info['title']`, `info['duration']`). -/
structure Info where
  title : String
  duration : Nat
deriving Repr, DecidableEq

/-- The `ValueError` reasons raised inside `vapor`, in source order, plus
`uncaughtGetInfo` for the direct-URL metadata fetch (line 150), whose
exception is not converted to a `ValueError` and so escapes the
`except ValueError` handler of `vapor_command`. -/
inductive VError where
  | sendMsgFailed
  | getInfoFailed
  | uncaughtGetInfo
  | noVideoFound
  | durationOutOfRange
  | downloadFailed
  | segmentFailed
  | exportFailed
  | fxFailed
  | sendAudioFailed
deriving Repr, DecidableEq

/-- A file on disk: its name, an abstract content token, and its size in
bytes.  Content tokens stand for byte strings; equal tokens mean
byte-identical files. -/
structure FileRec where
  name : String
  content : Nat
  size : Nat
deriving Repr, DecidableEq

/-- The working/cache directory: a flat list of files. -/
abbrev FS := List FileRec

/-- Look a file up by name. -/
def FS.lookup : FS → String → Option FileRec
  | [], _ => none
  | f :: fs, n => if f.name = n then some f else FS.lookup fs n

/-- Remove every record with the given name (`os.remove`). -/
def FS.remove : FS → String → FS
  | [], _ => []
  | f :: fs, n => if f.name = n then FS.remove fs n else f :: FS.remove fs n

/-- Write a file, overwriting any existing file of the same name. -/
def FS.write (fs : FS) (f : FileRec) : FS := f :: FS.remove fs f.name

/-- Does a file of this name exist (`Path(...).is_file()`)? -/
def FS.hasFile (fs : FS) (n : String) : Bool := (FS.lookup fs n).isSome

/-- Aggregate size in bytes of all files in the directory. -/
def FS.totalSize (fs : FS) : Nat := (fs.map (fun f => f.size)).sum

/-- The oracle environment: the answers of the external collaborators
(Telegram send operations, YouTube search/metadata/download, the chorus
detector, pydub segment handling, and the sox effect chain) for one request.
`Bool` fields say whether the corresponding external call succeeds; content
tokens and sizes describe the files the successful calls produce. -/
structure Env where
  sendMsgOk : Bool
  searchResults : List String
  extractInfo : String → Except Unit Info
  downloadOk : Bool
  rawContent : Nat
  rawSize : Nat
  detect : Nat → Bool
  detectContent : Nat
  detectSize : Nat
  segmentOk : Bool
  exportOk : Bool
  clip : Nat → Nat → Nat
  clipSize : Nat
  fxOk : Bool
  fx : Nat → Nat
  fxSize : Nat
  sendAudioOk : Bool

/-- Observable behaviour of one `vapor` run: whether the YouTube search was
contacted, which URL the download stage was invoked on and how many times,
the target durations passed to the chorus detector, how many times the
chorus-resolution stage and the effect chain ran, and the content delivered
to the user (if any). -/
structure Trace where
  searched : Bool := false
  downloadedUrl : Option String := none
  downloads : Nat := 0
  detectCalls : List Nat := []
  chorusRuns : Nat := 0
  fxRuns : Nat := 0
  delivered : Option Nat := none
deriving Repr, DecidableEq

/-- Line 137: the acceptance test of the search loop,
`info['duration'] < MAX_DURATION and info['duration'] >= 5`. -/
def searchAccept (d : Nat) : Bool := decide (d < MAX_DURATION ∧ 5 ≤ d)

/-- Line 152: the rejection test of the direct-URL path,
`info['duration'] < 5 or info['duration'] > MAX_DURATION`. -/
def directReject (d : Nat) : Bool := decide (d < 5 ∨ MAX_DURATION < d)

/-- Lines 125-141: the `for url in search_results` loop.  `acc` is the pair
of the Python variables `url`/`info`, which start as (undefined, `False`) and
are overwritten on every iteration; a metadata-fetch exception raises
`ValueError` (line 135) at once; the loop breaks on the first candidate
passing the duration test. -/
def searchLoop (e : Env) : List String → Option (String × Info) →
    Except VError (Option (String × Info))
  | [], acc => .ok acc
  | url :: rest, _acc =>
    match e.extractInfo url with
    | .error _ => .error .getInfoFailed
    | .ok i =>
      if searchAccept i.duration then .ok (some (url, i))
      else searchLoop e rest (some (url, i))

/-- Lines 118-153: query resolution.  Non-URL queries go through the search
loop (the returned `Bool` records that the search page was fetched, i.e. the
Video Source was contacted); after the loop, `if (not info)` only fires when
the result list was empty, since `info` holds the last fetched metadata
otherwise.  URL queries fetch metadata once and apply the duration check of
line 152. -/
def resolve (e : Env) (query : String) : Except VError (String × Info) × Bool :=
  if isYoutubeUrl query = false then
    (match searchLoop e e.searchResults none with
     | .error er => .error er
     | .ok none => .error .noVideoFound
     | .ok (some (url, i)) => .ok (url, i), true)
  else
    (match e.extractInfo query with
     | .error _ => .error .uncaughtGetInfo
     | .ok i =>
       if directReject i.duration then .error .durationOutOfRange
       else .ok (query, i), false)

/-- Lines 182-186: the chorus loop.
`chorus = False; chorus_duration = 15;`
`while (not chorus and chorus_duration > 0):`
`  chorus = find_and_output_chorus(original_path, chorus_path, 15)`
`  chorus_duration -= 5`.
The first returned component is the list of target durations actually passed
to `find_and_output_chorus` (the literal `15` each time); the second is the
final value of `chorus`. -/
def chorusLoop (e : Env) (chorus : Bool) (dur : Nat) : List Nat × Bool :=
  if h : chorus = false ∧ 0 < dur then
    let c := e.detect 15
    let r := chorusLoop e c (dur - 5)
    (15 :: r.1, r.2)
  else ([], chorus)
termination_by dur
decreasing_by
  obtain ⟨-, h2⟩ := h
  omega

/-- Lines 200-201: `while (chorus_duration > info['duration']): chorus_duration -= 5`,
started from `t`. -/
def clipLoop (d : Nat) (t : Nat) : Nat :=
  if h : d < t then clipLoop d (t - 5) else t
termination_by t
decreasing_by omega

/-- The fallback clip length in seconds: the loop above started from the
reset value `chorus_duration = 15` (line 191). -/
def clipLen (d : Nat) : Nat := clipLoop d 15

/-- Python `\w` on the ASCII range: letters, digits and the underscore.
(Outside ASCII, Python additionally treats Unicode alphanumerics as word
characters; the claims and all counterexamples here live in ASCII.) -/
def pyWordChar (c : Char) : Bool := c.isAlphanum || c == '_'

/-- Lines 156-157: `title = (re.sub(r'\W+', '', info['title']))[:15]` followed
by `title.encode('ascii', errors='ignore').decode()`: remove the non-word
characters, keep the first 15 characters, then drop non-ASCII characters. -/
def cacheKey (title : String) : String :=
  (((title.toList.filter pyWordChar).take 15).filter
    (fun c => decide (c.toNat < 128))).asString

/-- Modelled from the spec's words for comparison with `cacheKey` (claim C8):
strip all non-alphanumeric characters, take the first 15 characters, drop
non-ASCII bytes. -/
def specCacheKey (title : String) : String :=
  (((title.toList.filter Char.isAlphanum).take 15).filter
    (fun c => decide (c.toNat < 128))).asString

/-- Lines 76-241: the `vapor` pipeline over the oracle environment `e` and
the file system `fs`.  It mirrors the source stage by stage: working message,
query resolution, cache-key derivation and cache check with early return,
download, chorus loop with clip fallback, effect application, delivery, and
the cleanup of the two transient files that runs only after a successful
delivery (lines 235-241). -/
def vapor (e : Env) (query : String) (request_id : Nat) (fs : FS) :
    Except VError Unit × FS × Trace :=
  let original_path := toString request_id ++ ".wav"
  let chorus_path := toString request_id ++ "_chorus.wav"
  if e.sendMsgOk = false then (.error .sendMsgFailed, fs, {}) else
  match resolve e query with
  | (.error er, searched) => (.error er, fs, { searched := searched })
  | (.ok (url, info), searched) =>
    let title := cacheKey info.title
    let vapor_path := title ++ "_vapor.wav"
    match FS.lookup fs vapor_path with
    | some f =>
      if e.sendAudioOk = false then (.error .sendAudioFailed, fs, { searched := searched })
      else (.ok (), fs, { searched := searched, delivered := some f.content })
    | none =>
      if e.downloadOk = false then
        (.error .downloadFailed, fs,
         { searched := searched, downloadedUrl := some url, downloads := 1 })
      else
        let fs1 := FS.write fs ⟨original_path, e.rawContent, e.rawSize⟩
        let det := chorusLoop e false 15
        let tr1 : Trace :=
          { searched := searched, downloadedUrl := some url, downloads := 1,
            detectCalls := det.1, chorusRuns := 1 }
        match (if det.2 then
                 .ok (⟨chorus_path, e.detectContent, e.detectSize⟩ : FileRec)
               else if e.segmentOk = false then .error VError.segmentFailed
               else if e.exportOk = false then .error VError.exportFailed
               else .ok ⟨chorus_path, e.clip e.rawContent (clipLen info.duration),
                         e.clipSize⟩ : Except VError FileRec) with
        | .error er => (.error er, fs1, tr1)
        | .ok chorusRec =>
          let fs2 := FS.write fs1 chorusRec
          if e.fxOk = false then (.error .fxFailed, fs2, { tr1 with fxRuns := 1 })
          else
            let out := e.fx chorusRec.content
            let fs3 := FS.write fs2 ⟨vapor_path, out, e.fxSize⟩
            let tr2 := { tr1 with fxRuns := 1 }
            if e.sendAudioOk = false then (.error .sendAudioFailed, fs3, tr2)
            else
              let fs4 := FS.remove (FS.remove fs3 original_path) chorus_path
              (.ok (), fs4, { tr2 with delivered := some out })

/-- Outcome of the `/vapor` handler: `status = "success" | "failed"` from
lines 263-271, plus `crashed` for the exception of line 150 that is not a
`ValueError` and escapes the handler. -/
inductive CmdStatus where
  | success
  | failed
  | crashed
deriving Repr, DecidableEq

/-- Python `str.replace`: replace every (left-to-right, non-overlapping)
occurrence of `pat` by `rep`. -/
def replaceAll (pat rep : List Char) : List Char → List Char
  | [] => []
  | c :: rest =>
    if h : pat ≠ [] ∧ pat.isPrefixOf (c :: rest) then
      rep ++ replaceAll pat rep ((c :: rest).drop pat.length)
    else
      c :: replaceAll pat rep rest
termination_by l => l.length
decreasing_by
  · have hp : 0 < pat.length := List.length_pos.mpr h.1
    simp only [List.length_drop, List.length_cons]
    omega
  · simp only [List.length_cons]
    omega

/-- Lines 252-276: the `/vapor` command handler.  The request text is the
message text with every occurrence of `'/vapor '` removed (line 259); there is
no check on the length of the request text before `vapor` is invoked. -/
def vaporCommand (e : Env) (messageText : String) (request_id : Nat) (fs : FS) :
    CmdStatus × FS × Trace :=
  let request_text := (replaceAll "/vapor ".toList [] messageText.toList).asString
  match vapor e request_text request_id fs with
  | (.ok _, fs1, t) => (.success, fs1, t)
  | (.error .uncaughtGetInfo, fs1, t) => (.crashed, fs1, t)
  | (.error _, fs1, t) => (.failed, fs1, t)

/-- The excerpt content the compute path feeds to the effect chain: the
detector's output when it succeeded, otherwise the clipped first seconds of
the raw audio. -/
def vaporExcerpt (e : Env) (D : Nat) : Nat :=
  if e.detect 15 then e.detectContent else e.clip e.rawContent (clipLen D)

/-- Size of the excerpt file on the compute path. -/
def vaporExcerptSize (e : Env) : Nat :=
  if e.detect 15 then e.detectSize else e.clipSize

/-- An environment in which every external call succeeds: search is unused,
metadata always resolves to a 100-second video titled "Song", and the chorus
detector succeeds. -/
def envAllOk : Env :=
  { sendMsgOk := true, searchResults := [],
    extractInfo := fun _ => .ok ⟨"Song", 100⟩,
    downloadOk := true, rawContent := 1, rawSize := 11,
    detect := fun _ => true, detectContent := 2, detectSize := 12,
    segmentOk := true, exportOk := true,
    clip := fun a b => 1000 * a + b, clipSize := 13,
    fxOk := true, fx := fun n => n + 100, fxSize := 14,
    sendAudioOk := true }

/-- Search returns one candidate whose video lasts 1000 seconds — outside
every accepted range. -/
def envC1 : Env :=
  { envAllOk with searchResults := ["u1"],
                  extractInfo := fun _ => .ok ⟨"LongVid", 1000⟩ }

/-- Everything succeeds until the effect chain, which fails. -/
def envC2 : Env := { envAllOk with fxOk := false }

/-- A fully successful direct-URL run. -/
def envC3 : Env := envAllOk

/-- A pre-existing cache artifact of 600,000,000 bytes. -/
def fsC3 : FS := [⟨"OLD_vapor.wav", 7, 600000000⟩]

/-- Search returns no results at all. -/
def envC4 : Env := { envAllOk with searchResults := [] }

/-- A chorus detector that fails for target 15 but would succeed for
target 10. -/
def envC5 : Env := { envAllOk with detect := fun t => decide (t = 10) }

/-- A 12-second video on which the chorus detector always fails. -/
def envW6 : Env :=
  { envAllOk with extractInfo := fun _ => .ok ⟨"Tune", 12⟩,
                  detect := fun _ => false }

/-- Metadata for the C7 witness: candidate "b" fits the duration bounds,
every other candidate does not. -/
def fW7 : String → Info :=
  fun u => if u = "b" then ⟨"Fit", 100⟩ else ⟨"TooLong", 1000⟩

/-- Environment for the C7 witness. -/
def envW7 : Env := { envAllOk with extractInfo := fun u => .ok (fW7 u) }

/-- Search whose first candidate's metadata fetch fails and whose second
candidate would be perfectly acceptable. -/
def envW10 : Env :=
  { envAllOk with searchResults := ["bad", "good"],
                  extractInfo := fun u =>
                    if u = "bad" then .error () else .ok ⟨"Good", 100⟩ }

/-! ## File-system lemmas -/

theorem FS.lookup_remove_self (fs : FS) (n : String) :
    FS.lookup (FS.remove fs n) n = none := by
  induction fs with
  | nil => rfl
  | cons f fs ih =>
    by_cases h : f.name = n <;> simp [FS.remove, FS.lookup, h, ih]

theorem FS.lookup_remove_ne (fs : FS) {m n : String} (h : n ≠ m) :
    FS.lookup (FS.remove fs m) n = FS.lookup fs n := by
  induction fs with
  | nil => rfl
  | cons f fs ih =>
    rw [FS.remove]
    by_cases hf : f.name = m
    · rw [if_pos hf, ih, FS.lookup, if_neg]
      rw [hf]
      exact fun hc => h hc.symm
    · rw [if_neg hf, FS.lookup, FS.lookup]
      by_cases hn : f.name = n
      · rw [if_pos hn, if_pos hn]
      · rw [if_neg hn, if_neg hn, ih]

theorem FS.lookup_write_self (fs : FS) (f : FileRec) :
    FS.lookup (FS.write fs f) f.name = some f := by
  simp [FS.write, FS.lookup]

theorem FS.lookup_write_ne (fs : FS) (f : FileRec) {n : String} (h : n ≠ f.name) :
    FS.lookup (FS.write fs f) n = FS.lookup fs n := by
  have hne : ¬ f.name = n := fun hc => h hc.symm
  simp [FS.write, FS.lookup, hne, FS.lookup_remove_ne fs h]

theorem FS.hasFile_remove_self (fs : FS) (n : String) :
    FS.hasFile (FS.remove fs n) n = false := by
  simp [FS.hasFile, FS.lookup_remove_self]

theorem FS.hasFile_remove_ne (fs : FS) {m n : String} (h : n ≠ m) :
    FS.hasFile (FS.remove fs m) n = FS.hasFile fs n := by
  simp [FS.hasFile, FS.lookup_remove_ne fs h]

theorem FS.hasFile_write_of (fs : FS) (f : FileRec) {n : String}
    (h : FS.hasFile fs n = true) : FS.hasFile (FS.write fs f) n = true := by
  by_cases hn : n = f.name
  · subst hn
    simp [FS.hasFile, FS.lookup_write_self]
  · rw [FS.hasFile, FS.lookup_write_ne fs f hn]
    exact h

/-! ## Loop evaluation lemmas -/

theorem chorusLoop_step (e : Env) (dur : Nat) (h : 0 < dur) :
    chorusLoop e false dur =
      (15 :: (chorusLoop e (e.detect 15) (dur - 5)).1,
       (chorusLoop e (e.detect 15) (dur - 5)).2) := by
  rw [chorusLoop]
  simp [h]

theorem chorusLoop_true (e : Env) (dur : Nat) : chorusLoop e true dur = ([], true) := by
  rw [chorusLoop]
  simp

theorem chorusLoop_zero (e : Env) (c : Bool) : chorusLoop e c 0 = ([], c) := by
  rw [chorusLoop]
  simp

/-- Closed form of the chorus loop as started by `vapor`: one detector call
(with literal target 15) when the detector succeeds, three such calls when it
fails. -/
theorem chorusLoop_run (e : Env) :
    chorusLoop e false 15 =
      if e.detect 15 then ([15], true) else ([15, 15, 15], false) := by
  cases h : e.detect 15 with
  | true =>
    rw [chorusLoop_step e 15 (by omega), h, chorusLoop_true]
    simp
  | false =>
    rw [chorusLoop_step e 15 (by omega), h]
    rw [show (15 : Nat) - 5 = 10 from rfl, chorusLoop_step e 10 (by omega), h]
    rw [show (10 : Nat) - 5 = 5 from rfl, chorusLoop_step e 5 (by omega), h]
    rw [show (5 : Nat) - 5 = 0 from rfl, chorusLoop_zero]
    simp

theorem clipLoop_step (d t : Nat) (h : d < t) : clipLoop d t = clipLoop d (t - 5) := by
  rw [clipLoop]
  simp [h]

theorem clipLoop_stop (d t : Nat) (h : ¬ d < t) : clipLoop d t = t := by
  rw [clipLoop]
  simp [h]

/-- Closed form of the fallback clip length. -/
theorem clipLen_eq (d : Nat) :
    clipLen d = if 15 ≤ d then 15 else if 10 ≤ d then 10 else if 5 ≤ d then 5 else 0 := by
  unfold clipLen
  by_cases h15 : 15 ≤ d
  · rw [clipLoop_stop d 15 (by omega), if_pos h15]
  · rw [clipLoop_step d 15 (by omega), show (15 : Nat) - 5 = 10 from rfl]
    by_cases h10 : 10 ≤ d
    · rw [clipLoop_stop d 10 (by omega), if_neg h15, if_pos h10]
    · rw [clipLoop_step d 10 (by omega), show (10 : Nat) - 5 = 5 from rfl]
      by_cases h5 : 5 ≤ d
      · rw [clipLoop_stop d 5 (by omega), if_neg h15, if_neg h10, if_pos h5]
      · rw [clipLoop_step d 5 (by omega), show (5 : Nat) - 5 = 0 from rfl]
        rw [clipLoop_stop d 0 (by omega), if_neg h15, if_neg h10, if_neg h5]

theorem replaceAll_nil (pat rep : List Char) : replaceAll pat rep [] = [] := by
  rw [replaceAll]

theorem replaceAll_cons_pos (pat rep : List Char) (c : Char) (rest : List Char)
    (h : pat ≠ [] ∧ pat.isPrefixOf (c :: rest) = true) :
    replaceAll pat rep (c :: rest) =
      rep ++ replaceAll pat rep ((c :: rest).drop pat.length) := by
  rw [replaceAll]
  simp [h]

theorem replaceAll_cons_neg (pat rep : List Char) (c : Char) (rest : List Char)
    (h : ¬ (pat ≠ [] ∧ pat.isPrefixOf (c :: rest) = true)) :
    replaceAll pat rep (c :: rest) = c :: replaceAll pat rep rest := by
  rw [replaceAll]
  simp only [dif_neg h]

/-- The two transient file names of one request are distinct. -/
theorem orig_ne_chorus (rid : Nat) :
    toString rid ++ ".wav" ≠ toString rid ++ "_chorus.wav" := by
  intro h
  have hl := congrArg String.length h
  rw [String.length_append, String.length_append] at hl
  have e1 : ".wav".length = 4 := rfl
  have e2 : "_chorus.wav".length = 11 := rfl
  omega

/-! ## Pipeline evaluation lemmas -/

/-- Resolution of a direct YouTube URL whose duration passes the check. -/
theorem resolve_direct (e : Env) (q : String) (i : Info)
    (hurl : isYoutubeUrl q = true) (hx : e.extractInfo q = .ok i)
    (hd : directReject i.duration = false) :
    resolve e q = (.ok (q, i), false) := by
  simp [resolve, hurl, hx, hd]

/-- Full evaluation of a successful compute-path run: resolution succeeded,
the cache missed, and every later stage succeeds.  The final file system
carries the raw file and the excerpt written and then removed, and the cache
artifact written and kept. -/
theorem vapor_compute_success (e : Env) (q u T : String) (D : Nat) (s : Bool)
    (rid : Nat) (fs : FS)
    (hmsg : e.sendMsgOk = true)
    (hres : resolve e q = (.ok (u, ⟨T, D⟩), s))
    (hmiss : FS.lookup fs (cacheKey T ++ "_vapor.wav") = none)
    (hdl : e.downloadOk = true) (hseg : e.segmentOk = true)
    (hexp : e.exportOk = true) (hfx : e.fxOk = true)
    (hsend : e.sendAudioOk = true) :
    vapor e q rid fs =
      (.ok (),
       FS.remove (FS.remove
         (FS.write
           (FS.write
             (FS.write fs ⟨toString rid ++ ".wav", e.rawContent, e.rawSize⟩)
             ⟨toString rid ++ "_chorus.wav", vaporExcerpt e D, vaporExcerptSize e⟩)
           ⟨cacheKey T ++ "_vapor.wav", e.fx (vaporExcerpt e D), e.fxSize⟩)
         (toString rid ++ ".wav")) (toString rid ++ "_chorus.wav"),
       { searched := s, downloadedUrl := some u, downloads := 1,
         detectCalls := if e.detect 15 then [15] else [15, 15, 15],
         chorusRuns := 1, fxRuns := 1,
         delivered := some (e.fx (vaporExcerpt e D)) }) := by
  simp only [vapor, hmsg, hres, hmiss, hdl, hseg, hexp, hfx, hsend, chorusLoop_run]
  cases hdet : e.detect 15 <;>
    simp [hdet, vaporExcerpt, vaporExcerptSize]

/-- Full evaluation of a cache-hit run: resolution succeeded and the lookup
for the derived key found a file.  The run delivers that file's content and
touches nothing: no download, no chorus stage, no effect chain, and the file
system is returned unchanged. -/
theorem vapor_cache_hit (e : Env) (q u T : String) (D : Nat) (s : Bool)
    (rid : Nat) (fs : FS) (f : FileRec)
    (hmsg : e.sendMsgOk = true)
    (hres : resolve e q = (.ok (u, ⟨T, D⟩), s))
    (hhit : FS.lookup fs (cacheKey T ++ "_vapor.wav") = some f)
    (hsend : e.sendAudioOk = true) :
    vapor e q rid fs = (.ok (), fs, { searched := s, delivered := some f.content }) := by
  simp only [vapor, hmsg, hres, hhit, hsend]
  simp

/-! ## Claims -/

/-- C1: the claim says that a keyword search whose candidate list contains no
candidate with duration in the accepted range fails with `NoCandidateFound`
and that no unacceptable candidate is ever accepted, downloaded, or
processed.  The code violates this: with a single search result of duration
1000 seconds (rejected by `searchAccept`), the loop leaves `info` bound to
that candidate's metadata, the `if (not info)` guard of line 143 does not
fire, and the pipeline downloads, processes and delivers that candidate. -/
theorem C1_last_candidate_downloaded :
    searchAccept 1000 = false
    ∧ (vapor envC1 "longsong" 1 []).1 = .ok ()
    ∧ (vapor envC1 "longsong" 1 []).2.2.downloadedUrl = some "u1"
    ∧ (vapor envC1 "longsong" 1 []).2.2.delivered ≠ none := by
  refine ⟨by decide, ?_, ?_, ?_⟩ <;>
    · simp only [vapor, resolve, searchLoop, envC1, envAllOk, chorusLoop_run]
      decide

/-- C2 counterexample: a run in which every stage up to the effect chain
succeeds and the effect chain fails ends in a failure terminal state with
both transient files (`1.wav`, `1_chorus.wav`) still present: the cleanup of
lines 235-241 is only reached after a successful delivery. -/
theorem C2_failure_keeps_transients :
    (vapor envC2 "youtu.be/x" 1 []).1 = .error .fxFailed
    ∧ FS.hasFile (vapor envC2 "youtu.be/x" 1 []).2.1 "1.wav" = true
    ∧ FS.hasFile (vapor envC2 "youtu.be/x" 1 []).2.1 "1_chorus.wav" = true := by
  refine ⟨?_, ?_, ?_⟩ <;>
    · simp only [vapor, resolve, envC2, envAllOk, chorusLoop_run]
      decide

/-- C3 counterexample: a successful request that starts with a working/cache
directory holding 600,000,000 bytes (over the 500,000,000-byte threshold)
finishes with the old cache artifact still present and the aggregate still
over the threshold: no quota enforcement exists in the code. -/
theorem C3_no_quota_purge :
    500000000 < FS.totalSize fsC3
    ∧ (vapor envC3 "youtu.be/x" 1 fsC3).1 = .ok ()
    ∧ FS.hasFile (vapor envC3 "youtu.be/x" 1 fsC3).2.1 "OLD_vapor.wav" = true
    ∧ 500000000 < FS.totalSize (vapor envC3 "youtu.be/x" 1 fsC3).2.1 := by
  refine ⟨by decide, ?_, ?_, ?_⟩ <;>
    · simp only [vapor, resolve, envC3, envAllOk, chorusLoop_run]
      decide

/-- C5: the claim says chorus resolution calls the detector with targets 15,
then 10, then 5.  The code calls `find_and_output_chorus` with the literal
`15` every time (line 185); with a detector that fails at 15 but would
succeed at 10, the loop makes three calls with target 15 and ends without a
chorus, entering the clip fallback. -/
theorem C5_constant_target :
    envC5.detect 15 = false
    ∧ envC5.detect 10 = true
    ∧ chorusLoop envC5 false 15 = ([15, 15, 15], false) := by
  refine ⟨by decide, by decide, ?_⟩
  rw [chorusLoop_run]
  decide

/-- C7 counterexample: duration 420 is rejected by the search-path test
(line 137, strict `<`) but accepted by the direct-URL test (line 152,
`> MAX_DURATION`): the two paths do not use the same bounds. -/
theorem C7_420_asymmetric :
    searchAccept 420 = false ∧ directReject 420 = false := by
  decide

/-- C8 counterexample: the title `"a_b"` keeps its underscore under the
code's sanitization (Python `\W` treats `_` as a word character), while the
claimed derivation (strip all non-alphanumeric characters) yields `"ab"`. -/
theorem C8_underscore_kept :
    cacheKey "a_b" = "a_b" ∧ specCacheKey "a_b" = "ab" ∧ "a_b" ≠ "ab" := by
  refine ⟨by decide, by decide, by decide⟩

/-- C4 counterexample: the two-character query `"ab"` (from the message
`"/vapor ab"`) is not rejected: the handler strips the command prefix and
invokes the pipeline, which contacts the Video Source search (the trace's
`searched` flag) before failing for an unrelated reason. -/
theorem C4_short_query_still_searched :
    ("ab".length < 5)
    ∧ (vaporCommand envC4 "/vapor ab" 1 []).1 = .failed
    ∧ (vaporCommand envC4 "/vapor ab" 1 []).2.2.searched = true := by
  have hreq : (replaceAll "/vapor ".toList [] "/vapor ab".toList).asString = "ab" := by
    rw [show "/vapor ab".toList = '/' :: 'v' :: 'a' :: 'p' :: 'o' :: 'r' :: ' ' :: 'a' :: 'b' :: [] from rfl]
    rw [replaceAll_cons_pos _ _ _ _ (by decide)]
    rw [show List.drop ("/vapor ".toList.length)
          ('/' :: 'v' :: 'a' :: 'p' :: 'o' :: 'r' :: ' ' :: 'a' :: 'b' :: []) = ['a', 'b'] from by decide]
    rw [replaceAll_cons_neg _ _ _ _ (by decide)]
    rw [replaceAll_cons_neg _ _ _ _ (by decide)]
    rw [replaceAll_nil]
    decide
  refine ⟨by decide, ?_, ?_⟩ <;>
    · simp only [vaporCommand, hreq]
      simp only [vapor, resolve, searchLoop, envC4, envAllOk]
      decide

/-- C4 amended: no minimum-length check exists anywhere on the path from the
handler into the pipeline; every non-URL query — of any length — reaches the
Video Source search. -/
theorem C4_no_length_fastfail (e : Env) (q : String) (rid : Nat) (fs : FS)
    (hmsg : e.sendMsgOk = true) (hurl : isYoutubeUrl q = false) :
    (vapor e q rid fs).2.2.searched = true := by
  simp only [vapor, resolve, hmsg, hurl]
  repeat' split
  all_goals simp_all

theorem C4_no_length_fastfail_witness :
    (vapor envC4 "ab" 1 []).2.2.searched = true :=
  C4_no_length_fastfail envC4 "ab" 1 [] rfl (by decide)

/-- C10: on the keyword-search path, a metadata-fetch error for the first
candidate aborts the whole request with the error of line 135
(`Could not get information about video.`), regardless of what follows in
the candidate list — the resolver never skips past the failing candidate. -/
theorem C10_metadata_error_aborts (e : Env) (q : String) (rid : Nat) (fs : FS)
    (u : String) (rest : List String)
    (hmsg : e.sendMsgOk = true) (hurl : isYoutubeUrl q = false)
    (hres : e.searchResults = u :: rest) (hx : e.extractInfo u = .error ()) :
    (vapor e q rid fs).1 = .error .getInfoFailed := by
  simp [vapor, resolve, searchLoop, hmsg, hurl, hres, hx]

theorem C10_metadata_error_aborts_witness :
    (vapor envW10 "some song" 3 []).1 = .error .getInfoFailed :=
  C10_metadata_error_aborts envW10 "some song" 3 [] "bad" ["good"]
    rfl (by decide) rfl (by decide)

/-- C2 amended: the transient working files are removed when (and only on
paths where) the pipeline reaches a successful terminal state; a successful
run never leaves the request's raw or excerpt file behind (on the cache-hit
path they were never created).  On failure terminal states no cleanup runs —
see the counterexample. -/
theorem C2_cleanup_only_on_success (e : Env) (q : String) (rid : Nat) (fs : FS)
    (h1 : FS.hasFile fs (toString rid ++ ".wav") = false)
    (h2 : FS.hasFile fs (toString rid ++ "_chorus.wav") = false)
    (hok : (vapor e q rid fs).1 = .ok ()) :
    FS.hasFile (vapor e q rid fs).2.1 (toString rid ++ ".wav") = false
    ∧ FS.hasFile (vapor e q rid fs).2.1 (toString rid ++ "_chorus.wav") = false := by
  revert hok
  simp only [vapor]
  repeat' split
  all_goals intro hok
  all_goals first
    | exact ⟨h1, h2⟩
    | exact ⟨(FS.hasFile_remove_ne _ (orig_ne_chorus rid)).trans
               (FS.hasFile_remove_self _ _),
             FS.hasFile_remove_self _ _⟩
    | exact absurd hok (by simp)

theorem C2_cleanup_only_on_success_witness :
    FS.hasFile (vapor envAllOk "youtu.be/x" 1 []).2.1 (toString 1 ++ ".wav") = false
    ∧ FS.hasFile (vapor envAllOk "youtu.be/x" 1 []).2.1 (toString 1 ++ "_chorus.wav") = false :=
  C2_cleanup_only_on_success envAllOk "youtu.be/x" 1 [] rfl rfl
    (by simp only [vapor, resolve, envAllOk, chorusLoop_run]; decide)

/-- C3 amended: no quota enforcement exists.  Whatever the aggregate size of
the working/cache directory, a `vapor` run (successful or not) never deletes
any file other than the request's own two transient files; in particular
every cache artifact survives. -/
theorem C3_artifacts_never_deleted (e : Env) (q : String) (rid : Nat) (fs : FS)
    (n : String) (h : FS.hasFile fs n = true)
    (h1 : n ≠ toString rid ++ ".wav") (h2 : n ≠ toString rid ++ "_chorus.wav") :
    FS.hasFile (vapor e q rid fs).2.1 n = true := by
  simp only [vapor]
  repeat' split
  all_goals first
    | exact h
    | exact FS.hasFile_write_of _ _ h
    | exact FS.hasFile_write_of _ _ (FS.hasFile_write_of _ _ h)
    | exact FS.hasFile_write_of _ _ (FS.hasFile_write_of _ _ (FS.hasFile_write_of _ _ h))
    | (rw [FS.hasFile_remove_ne _ h2, FS.hasFile_remove_ne _ h1]
       exact FS.hasFile_write_of _ _ (FS.hasFile_write_of _ _ (FS.hasFile_write_of _ _ h)))

theorem C3_artifacts_never_deleted_witness :
    FS.hasFile (vapor envC3 "youtu.be/x" 1 fsC3).2.1 "OLD_vapor.wav" = true :=
  C3_artifacts_never_deleted envC3 "youtu.be/x" 1 fsC3 "OLD_vapor.wav"
    (by decide) (by decide) (by decide)

/-- The search loop returns the first candidate passing the duration test
when every metadata fetch succeeds and such a candidate exists. -/
theorem searchLoop_first (e : Env) (f : String → Info) :
    ∀ (l : List String) (acc : Option (String × Info)),
      (∀ v ∈ l, e.extractInfo v = .ok (f v)) →
      ∀ u, l.find? (fun v => searchAccept (f v).duration) = some u →
      searchLoop e l acc = .ok (some (u, f u)) := by
  intro l
  induction l with
  | nil =>
    intro acc _ u hfind
    simp at hfind
  | cons v rest ih =>
    intro acc hx u hfind
    simp only [searchLoop]
    rw [hx v (List.mem_cons_self v rest)]
    cases hv : searchAccept (f v).duration with
    | true =>
      simp only [List.find?, hv] at hfind
      injection hfind with h
      subst h
      simp [hv]
    | false =>
      simp only [List.find?, hv] at hfind
      simp only [hv, Bool.false_eq_true, if_false]
      exact ih _ (fun w hw => hx w (List.mem_cons_of_mem v hw)) u hfind

/-- C6: when the chorus detector always fails, the compute path delivers the
effect chain applied to the first `clipLen D` seconds of the raw audio, where
`clipLen D` is the largest multiple of 5 that is at most `min 15 D`, and is
never below 5 for durations `D ≥ 5`. -/
theorem C6_clip_fallback (e : Env) (q u T : String) (D : Nat) (s : Bool)
    (rid : Nat) (fs : FS)
    (hmsg : e.sendMsgOk = true)
    (hres : resolve e q = (.ok (u, ⟨T, D⟩), s))
    (hD : 5 ≤ D)
    (hmiss : FS.lookup fs (cacheKey T ++ "_vapor.wav") = none)
    (hdl : e.downloadOk = true)
    (hdet : ∀ t, e.detect t = false)
    (hseg : e.segmentOk = true) (hexp : e.exportOk = true)
    (hfx : e.fxOk = true) (hsend : e.sendAudioOk = true) :
    (vapor e q rid fs).2.2.delivered = some (e.fx (e.clip e.rawContent (clipLen D)))
    ∧ clipLen D = 5 * (min 15 D / 5)
    ∧ 5 ≤ clipLen D := by
  refine ⟨?_, ?_, ?_⟩
  · rw [vapor_compute_success e q u T D s rid fs hmsg hres hmiss hdl hseg hexp hfx hsend]
    simp [vaporExcerpt, hdet 15]
  · rw [clipLen_eq]
    by_cases h15 : 15 ≤ D
    · rw [if_pos h15, Nat.min_eq_left h15]
    · rw [if_neg h15, Nat.min_eq_right (by omega : D ≤ 15)]
      by_cases h10 : 10 ≤ D
      · rw [if_pos h10]
        omega
      · rw [if_neg h10, if_pos hD]
        omega
  · rw [clipLen_eq]
    split_ifs <;> omega

theorem C6_clip_fallback_witness :
    (vapor envW6 "youtu.be/x" 1 []).2.2.delivered
        = some (envW6.fx (envW6.clip envW6.rawContent (clipLen 12)))
    ∧ clipLen 12 = 5 * (min 15 12 / 5)
    ∧ 5 ≤ clipLen 12 :=
  C6_clip_fallback envW6 "youtu.be/x" "youtu.be/x" "Tune" 12 false 1 []
    rfl (by decide) (by decide) rfl rfl (fun _ => rfl) rfl rfl rfl rfl

/-- C7 amended: the search path accepts exactly the durations `5 ≤ d < 420`
(420 excluded) while the direct-URL path accepts exactly `5 ≤ d ≤ 420` (420
included) — the bounds differ at 420; on the search path the first candidate
in list order passing its test is chosen and earlier candidates are skipped;
a direct-URL candidate failing its test yields `DurationOutOfRange`. -/
theorem C7_bounds_and_first_match (e : Env) (f : String → Info)
    (l : List String) (u : String) (acc : Option (String × Info))
    (hx : ∀ v ∈ l, e.extractInfo v = .ok (f v))
    (hfind : l.find? (fun v => searchAccept (f v).duration) = some u) :
    searchLoop e l acc = .ok (some (u, f u))
    ∧ (∀ d : Nat, searchAccept d = true ↔ 5 ≤ d ∧ d < 420)
    ∧ (∀ d : Nat, directReject d = false ↔ 5 ≤ d ∧ d ≤ 420)
    ∧ (∀ (e2 : Env) (q : String) (i : Info), isYoutubeUrl q = true →
         e2.extractInfo q = .ok i → directReject i.duration = true →
         (resolve e2 q).1 = .error .durationOutOfRange) := by
  refine ⟨searchLoop_first e f l acc hx u hfind, ?_, ?_, ?_⟩
  · intro d
    simp only [searchAccept, MAX_DURATION, decide_eq_true_eq]
    omega
  · intro d
    simp only [directReject, MAX_DURATION, decide_eq_false_iff_not]
    omega
  · intro e2 q i hq hx2 hd
    simp [resolve, hq, hx2, hd]

theorem C7_bounds_and_first_match_witness :
    searchLoop envW7 ["a", "b"] none = .ok (some ("b", fW7 "b"))
    ∧ (∀ d : Nat, searchAccept d = true ↔ 5 ≤ d ∧ d < 420)
    ∧ (∀ d : Nat, directReject d = false ↔ 5 ≤ d ∧ d ≤ 420)
    ∧ (∀ (e2 : Env) (q : String) (i : Info), isYoutubeUrl q = true →
         e2.extractInfo q = .ok i → directReject i.duration = true →
         (resolve e2 q).1 = .error .durationOutOfRange) :=
  C7_bounds_and_first_match envW7 fW7 ["a", "b"] "b" none (by decide) (by decide)

/-- C8 amended: the key derivation keeps underscores (Python `\W` counts `_`
as a word character), so it agrees with the spec's "strip all
non-alphanumeric" exactly on underscore-free titles; the key is always at
most 15 characters, made only of word characters, and ASCII.  Determinism is
immediate: `cacheKey` is a function of the title alone. -/
theorem C8_key_properties (t : String) (hnou : '_' ∉ t.toList) :
    cacheKey t = specCacheKey t
    ∧ (cacheKey t).length ≤ 15
    ∧ ∀ c ∈ (cacheKey t).toList, (c.isAlphanum || c == '_') = true ∧ c.toNat < 128 := by
  refine ⟨?_, ?_, ?_⟩
  · have hf : t.toList.filter pyWordChar = t.toList.filter Char.isAlphanum := by
      apply List.filter_congr
      intro c hc
      have hne : c ≠ '_' := fun h => hnou (h ▸ hc)
      simp [pyWordChar, hne]
    rw [cacheKey, specCacheKey, hf]
  · have h0 : (cacheKey t).length
        = (((t.toList.filter pyWordChar).take 15).filter
            (fun c => decide (c.toNat < 128))).length := rfl
    rw [h0]
    calc (((t.toList.filter pyWordChar).take 15).filter
            (fun c => decide (c.toNat < 128))).length
        ≤ ((t.toList.filter pyWordChar).take 15).length :=
          List.length_filter_le _ _
      _ ≤ 15 := by
          rw [List.length_take]
          exact Nat.min_le_left _ _
  · intro c hc
    have hc2 : c ∈ ((t.toList.filter pyWordChar).take 15).filter
        (fun c => decide (c.toNat < 128)) := hc
    rw [List.mem_filter] at hc2
    obtain ⟨hc3, hascii⟩ := hc2
    have hc4 : c ∈ t.toList.filter pyWordChar := List.mem_of_mem_take hc3
    rw [List.mem_filter] at hc4
    exact ⟨hc4.2, of_decide_eq_true hascii⟩

theorem C8_key_properties_witness :
    cacheKey "Song" = specCacheKey "Song"
    ∧ (cacheKey "Song").length ≤ 15
    ∧ ∀ c ∈ (cacheKey "Song").toList, (c.isAlphanum || c == '_') = true ∧ c.toNat < 128 :=
  C8_key_properties "Song" (by decide)

/-- C9: a cache hit short-circuits the pipeline, and two sequential requests
resolving to the same cache key compute once: the first run downloads, runs
the chorus stage and the effect chain exactly once; the second run — over the
file system the first run left — performs none of those and delivers content
identical to the first run's. -/
theorem C9_cache_idempotence
    (e1 e2 : Env) (q1 q2 u1 u2 T1 T2 : String) (D1 D2 : Nat) (s1 s2 : Bool)
    (rid1 rid2 : Nat) (fs0 : FS)
    (h1msg : e1.sendMsgOk = true)
    (h1res : resolve e1 q1 = (.ok (u1, ⟨T1, D1⟩), s1))
    (h1miss : FS.lookup fs0 (cacheKey T1 ++ "_vapor.wav") = none)
    (h1dl : e1.downloadOk = true) (h1seg : e1.segmentOk = true)
    (h1exp : e1.exportOk = true) (h1fx : e1.fxOk = true)
    (h1send : e1.sendAudioOk = true)
    (hn1 : cacheKey T1 ++ "_vapor.wav" ≠ toString rid1 ++ ".wav")
    (hn2 : cacheKey T1 ++ "_vapor.wav" ≠ toString rid1 ++ "_chorus.wav")
    (h2msg : e2.sendMsgOk = true)
    (h2res : resolve e2 q2 = (.ok (u2, ⟨T2, D2⟩), s2))
    (hkey : cacheKey T2 = cacheKey T1)
    (h2send : e2.sendAudioOk = true) :
    (vapor e1 q1 rid1 fs0).1 = .ok ()
    ∧ (vapor e2 q2 rid2 (vapor e1 q1 rid1 fs0).2.1).1 = .ok ()
    ∧ (vapor e1 q1 rid1 fs0).2.2.downloads = 1
    ∧ (vapor e1 q1 rid1 fs0).2.2.chorusRuns = 1
    ∧ (vapor e1 q1 rid1 fs0).2.2.fxRuns = 1
    ∧ (vapor e2 q2 rid2 (vapor e1 q1 rid1 fs0).2.1).2.2.downloads = 0
    ∧ (vapor e2 q2 rid2 (vapor e1 q1 rid1 fs0).2.1).2.2.chorusRuns = 0
    ∧ (vapor e2 q2 rid2 (vapor e1 q1 rid1 fs0).2.1).2.2.fxRuns = 0
    ∧ (vapor e2 q2 rid2 (vapor e1 q1 rid1 fs0).2.1).2.2.delivered
        = (vapor e1 q1 rid1 fs0).2.2.delivered
    ∧ (vapor e1 q1 rid1 fs0).2.2.delivered.isSome = true := by
  have hrun1 := vapor_compute_success e1 q1 u1 T1 D1 s1 rid1 fs0
    h1msg h1res h1miss h1dl h1seg h1exp h1fx h1send
  have hlook : FS.lookup (vapor e1 q1 rid1 fs0).2.1 (cacheKey T2 ++ "_vapor.wav")
      = some ⟨cacheKey T1 ++ "_vapor.wav", e1.fx (vaporExcerpt e1 D1), e1.fxSize⟩ := by
    rw [hrun1, hkey]
    rw [FS.lookup_remove_ne _ hn2, FS.lookup_remove_ne _ hn1]
    exact FS.lookup_write_self _ _
  have hrun2 := vapor_cache_hit e2 q2 u2 T2 D2 s2 rid2 (vapor e1 q1 rid1 fs0).2.1
    ⟨cacheKey T1 ++ "_vapor.wav", e1.fx (vaporExcerpt e1 D1), e1.fxSize⟩
    h2msg h2res hlook h2send
  refine ⟨by simp [hrun1], by simp [hrun2], by simp [hrun1], by simp [hrun1],
          by simp [hrun1], by simp [hrun2], by simp [hrun2],
          by simp [hrun2], by rw [hrun2]; simp [hrun1], by simp [hrun1]⟩

theorem C9_cache_idempotence_witness :
    (vapor envAllOk "youtu.be/x" 1 []).1 = .ok ()
    ∧ (vapor envAllOk "youtu.be/x" 2 (vapor envAllOk "youtu.be/x" 1 []).2.1).1 = .ok ()
    ∧ (vapor envAllOk "youtu.be/x" 1 []).2.2.downloads = 1
    ∧ (vapor envAllOk "youtu.be/x" 1 []).2.2.chorusRuns = 1
    ∧ (vapor envAllOk "youtu.be/x" 1 []).2.2.fxRuns = 1
    ∧ (vapor envAllOk "youtu.be/x" 2 (vapor envAllOk "youtu.be/x" 1 []).2.1).2.2.downloads = 0
    ∧ (vapor envAllOk "youtu.be/x" 2 (vapor envAllOk "youtu.be/x" 1 []).2.1).2.2.chorusRuns = 0
    ∧ (vapor envAllOk "youtu.be/x" 2 (vapor envAllOk "youtu.be/x" 1 []).2.1).2.2.fxRuns = 0
    ∧ (vapor envAllOk "youtu.be/x" 2 (vapor envAllOk "youtu.be/x" 1 []).2.1).2.2.delivered
        = (vapor envAllOk "youtu.be/x" 1 []).2.2.delivered
    ∧ (vapor envAllOk "youtu.be/x" 1 []).2.2.delivered.isSome = true :=
  C9_cache_idempotence envAllOk envAllOk "youtu.be/x" "youtu.be/x" "youtu.be/x" "youtu.be/x"
    "Song" "Song" 100 100 false false 1 2 []
    rfl (by decide) rfl rfl rfl rfl rfl rfl (by decide) (by decide)
    rfl (by decide) rfl rfl

end Vapor
